import Mathlib

/-
Shallow embedding of the dynamic form-schema engine of the
Employee_Onboarding repository.

Embedded source files:
  src/src/components/dashboard/admin/DepartmentSignupFormBuilder.tsx
    (validateField, validateForm, FileUploadField.onDrop, addField,
     saveField, deleteField, saveForm, loadExistingForm)
  src/src/components/dashboard/admin/FormManagementTab.tsx
    (second document in the file: the Onboarding page with
     uploadDocuments and handleSubmit)

JavaScript semantics are modelled explicitly: string values are truthy
iff non-empty, numeric options are truthy iff present and non-zero,
`String.prototype.trim` strips ASCII whitespace, and `undefined < n`
comparisons are false.  Strings are modelled as Lean `String` (the
sources only ever compare and measure ASCII text, where JS UTF-16
length and Lean character length agree).
-/

namespace Onboard

/-- The closed set of field types of the builder
(`FormField.type` union in DepartmentSignupFormBuilder.tsx). -/
inductive FieldType
  | text
  | email
  | phone
  | dropdown
  | file
deriving DecidableEq

/-- The `validation` payload of a field: optional integer length bounds. -/
structure FieldValidation where
  min : Option Nat
  max : Option Nat
deriving DecidableEq

/-- One form field, mirroring the `FormField` interface of
DepartmentSignupFormBuilder.tsx.  The `pattern` member of `validation`
is never read by any code in the repository and is omitted. -/
structure FormField where
  id : String
  type : FieldType
  label : String
  required : Bool
  options : Option (List String)
  validation : Option FieldValidation
  fileTypes : Option (List String)
  maxFileSize : Option Nat
deriving DecidableEq

/-- A browser File value: name and byte size are the only attributes the
embedded code reads. -/
structure FileV where
  name : String
  size : Nat
deriving DecidableEq

/-- A raw submission value: a string or a selected file. -/
inductive Value
  | str (s : String)
  | file (f : FileV)
deriving DecidableEq

/-- ASCII whitespace, the model of the JS `\s` class / `trim` targets. -/
def isJsWs (c : Char) : Bool :=
  c = ' ' || c = '\t' || c = '\n' || c = '\r' || c = '\x0b' || c = '\x0c'

/-- Model of `String.prototype.trim`: strip whitespace at both ends. -/
def jsTrim (s : String) : String :=
  ⟨((s.data.dropWhile isJsWs).reverse.dropWhile isJsWs).reverse⟩

/-- JS truthiness of a possibly-absent field value: null/undefined and
the empty string are falsy, any File object is truthy. -/
def vTruthy : Option Value → Bool
  | none => false
  | some (.str s) => s ≠ ""
  | some (.file _) => true

/-- JS `toString` coercion of a field value (a File stringifies to
"[object File]"); the `none` case is never reached behind a truthy
guard and is mapped to the empty string. -/
def vToStr : Option Value → String
  | none => ""
  | some (.str s) => s
  | some (.file _) => "[object File]"

/-- Model of `value.length < n` under JS semantics: strings compare
their length, a File's `length` is undefined and the comparison is
false. -/
def vLenLt : Option Value → Nat → Bool
  | some (.str s), n => decide (s.length < n)
  | _, _ => false

/-- Model of `value.length > n` under JS semantics. -/
def vLenGt : Option Value → Nat → Bool
  | some (.str s), n => decide (s.length > n)
  | _, _ => false

/-- JS truthiness of an optional number: absent and zero are falsy. -/
def natTruthy (o : Option Nat) : Bool :=
  o.getD 0 ≠ 0

/-- Splitting a character list at every occurrence of a separator, the
model of JS `String.prototype.split` with a one-character separator. -/
def splitOnChar (sep : Char) (cs : List Char) : List (List Char) :=
  cs.foldr
    (fun c acc =>
      match acc with
      | [] => [[c]]
      | g :: gs => if c = sep then [] :: g :: gs else (c :: g) :: gs)
    [[]]

/-- Occurrence of one character list inside another. -/
def containsSub : List Char → List Char → Bool
  | [], sub => sub.isEmpty
  | c :: t, sub => List.isPrefixOf sub (c :: t) || containsSub t sub

/-- Substring occurrence, the model of `String.prototype.includes`. -/
def strContains (s sub : String) : Bool :=
  containsSub s.data sub.data

/-- Decides whether the character list has a dot with a non-empty
prefix and a non-empty suffix around it. -/
def hasInnerDot (cs : List Char) : Bool :=
  (List.range cs.length).any fun i =>
    cs.getD i ' ' = '.' && decide (1 ≤ i) && decide (i + 2 ≤ cs.length)

/-- Model of the email regex of validateField,
`/^[^\s@]+@[^\s@]+\.[^\s@]+$/`: exactly one `@`, a non-empty
whitespace-free local part, and a whitespace-free remainder containing
a dot with non-empty text on both sides. -/
def emailTest (s : String) : Bool :=
  match splitOnChar '@' s.data with
  | [a, r] =>
      !a.isEmpty && a.all (fun c => !isJsWs c) &&
      r.all (fun c => !isJsWs c) && hasInnerDot r
  | _ => false

/-- Model of the phone regex of validateField,
`/^[\d\s\-\+\(\)]+$/`: non-empty, every character a digit, whitespace,
or one of `-` `+` `(` `)`. -/
def phoneTest (s : String) : Bool :=
  s ≠ "" && s.data.all fun c =>
    c.isDigit || isJsWs c || c = '-' || c = '+' || c = '(' || c = ')'

/-- Embedding of `validateField` (DepartmentSignupFormBuilder.tsx,
lines 177-206): first match among the required check, the email and
phone pattern checks, and the min/max length checks; `none` when the
field passes.  Dropdown membership and file constraints are not
inspected by the source function. -/
def validateField (f : FormField) (v : Option Value) : Option String :=
  if f.required && (!vTruthy v || jsTrim (vToStr v) == "") then
    some (f.label ++ " is required")
  else if f.type == .email && vTruthy v && !emailTest (vToStr v) then
    some "Please enter a valid email address"
  else if f.type == .phone && vTruthy v && !phoneTest (vToStr v) then
    some "Please enter a valid phone number"
  else
    match f.validation with
    | some val =>
        if natTruthy val.min && vTruthy v && vLenLt v (val.min.getD 0) then
          some ("Minimum " ++ toString (val.min.getD 0) ++ " characters required")
        else if natTruthy val.max && vTruthy v && vLenGt v (val.max.getD 0) then
          some ("Maximum " ++ toString (val.max.getD 0) ++ " characters allowed")
        else
          none
    | none => none

/-- Embedding of `validateForm` (lines 218-232): true iff no field
produces an error. -/
def validateForm (fields : List FormField) (formData : String → Option Value) : Bool :=
  fields.all fun f => (validateField f (formData f.id)).isNone

/-- The error mapping `validateForm` accumulates: the fields, in order,
that produce an error, with their messages. -/
def formErrors (fields : List FormField) (formData : String → Option Value) :
    List (String × String) :=
  fields.filterMap fun f => (validateField f (formData f.id)).map fun e => (f.id, e)

/-- Embedding of the validation prefix of `saveForm`
(DepartmentSignupFormBuilder.tsx, lines 888-940): the first failed
check produces a toast message and aborts the save; `none` means all
checks pass and persistence proceeds.  The source also tests
`!field.type`, which can never fire here because `FieldType` is the
closed enum of the TS union.  No check inspects duplicate ids or
dropdown options. -/
def saveFormError (selectedDepartment formName : String)
    (formFields : List FormField) : Option String :=
  if selectedDepartment == "" then
    some "Please select a department"
  else if formName == "" || jsTrim formName == "" then
    some "Please enter a form name"
  else if (jsTrim formName).length < 3 then
    some "Form name must be at least 3 characters long"
  else if formFields.isEmpty then
    some "Please add at least one field to the form"
  else if formFields.any (fun f => f.id == "" || f.label == "") then
    some "All fields must have an ID, label, and type"
  else
    none

/-- The destructive toasts one call to `saveForm` emits before the
persistence phase: each failed check returns after exactly one toast,
so the list is the at-most-one first error. -/
def saveFormToasts (selectedDepartment formName : String)
    (formFields : List FormField) : List String :=
  (saveFormError selectedDepartment formName formFields).toList

/-- One persisted row of the `department_signup_forms` table, as read
and written by the builder. -/
structure StoredForm where
  id : Nat
  department_id : String
  form_name : String
  form_description : String
  form_fields : List FormField
deriving DecidableEq

/-- The relational store for `department_signup_forms`: its rows plus a
fresh-id counter for inserts. -/
structure Store where
  rows : List StoredForm
  nextId : Nat
deriving DecidableEq

/-- A PostgREST-style error carrying a message and a code. -/
structure DbErr where
  message : String
  code : String
deriving DecidableEq

/-- Model of
`from("department_signup_forms").select().eq("department_id", d).maybeSingle()`:
no matching row yields `ok none` (not an error), one row yields its
data, several rows yield the PGRST116 error maybeSingle raises. -/
def Store.selectByDept (st : Store) (dept : String) :
    Except DbErr (Option StoredForm) :=
  match st.rows.filter (fun r => r.department_id == dept) with
  | [] => .ok none
  | [r] => .ok (some r)
  | _ :: _ :: _ =>
      .error ⟨"JSON object requested, multiple (or no) rows returned", "PGRST116"⟩

/-- Model of `insert(formData)`: a new row under a fresh id. -/
def Store.insertForm (st : Store) (dept name desc : String)
    (fields : List FormField) : Store :=
  { rows := st.rows ++ [⟨st.nextId, dept, name, desc, fields⟩]
    nextId := st.nextId + 1 }

/-- Model of `update(formData).eq("id", i)`: replace the content of
every row whose id matches. -/
def Store.updateById (st : Store) (i : Nat) (dept name desc : String)
    (fields : List FormField) : Store :=
  { st with rows := st.rows.map fun r =>
      if r.id == i then ⟨i, dept, name, desc, fields⟩ else r }

/-- The builder component state that `loadExistingForm` and `saveForm`
read and write. -/
structure BuilderState where
  selectedDepartment : String
  formName : String
  formDescription : String
  formFields : List FormField
  existingFormId : Option Nat
  noFormFound : Bool
deriving DecidableEq

/-- The four outcomes of `loadExistingForm`
(DepartmentSignupFormBuilder.tsx, lines 770-809), one per source
branch: the table-missing branch, the thrown-and-toasted error branch,
the loaded-data branch, and the no-form-found branch. -/
inductive LoadOutcome
  | tableMissing
  | failure (msg : String)
  | loaded (row : StoredForm)
  | notFound
deriving DecidableEq

/-- Embedding of the branch structure of `loadExistingForm` on the
query result: an error is classified as table-missing when its message
contains "does not exist" or its code is PGRST116, and otherwise
toasted as a load failure; absent data is the no-form-found outcome. -/
def loadExistingFormOutcome (res : Except DbErr (Option StoredForm)) : LoadOutcome :=
  match res with
  | .error e =>
      if strContains e.message "does not exist" || e.code == "PGRST116" then
        .tableMissing
      else
        .failure e.message
  | .ok (some row) => .loaded row
  | .ok none => .notFound

/-- The state updates `loadExistingForm` performs: loaded data fills
the form state and records the existing id, absent data resets the form
and flags no-form-found, an error leaves the form state unchanged
(only a toast or the table-missing flag is raised). -/
def applyLoad (b : BuilderState) :
    Except DbErr (Option StoredForm) → BuilderState
  | .ok (some row) =>
      { b with formName := row.form_name
               formDescription := row.form_description
               formFields := row.form_fields
               existingFormId := some row.id
               noFormFound := false }
  | .ok none =>
      { b with formName := ""
               formDescription := ""
               formFields := []
               existingFormId := none
               noFormFound := true }
  | .error _ => b

/-- Embedding of the whole of `saveForm` (lines 888-987) against the
store: when validation fails nothing is persisted and the state is
unchanged; otherwise the row is updated in place when an existing form
id is known and inserted otherwise, and `loadExistingForm` is re-run
for the department to refresh the state. -/
def saveForm (st : Store) (b : BuilderState) : Store × BuilderState :=
  match saveFormError b.selectedDepartment b.formName b.formFields with
  | some _ => (st, b)
  | none =>
      let st1 :=
        match b.existingFormId with
        | some i => st.updateById i b.selectedDepartment b.formName
            b.formDescription b.formFields
        | none => st.insertForm b.selectedDepartment b.formName
            b.formDescription b.formFields
      (st1, applyLoad b (st1.selectByDept b.selectedDepartment))

/-- The names of the lowercase field-type tags, as interpolated into
generated field ids. -/
def FieldType.tag : FieldType → String
  | .text => "text"
  | .email => "email"
  | .phone => "phone"
  | .dropdown => "dropdown"
  | .file => "file"

/-- Embedding of the id generation of `addField` (lines 848-861):
the new field id is the type tag, "_field_", and the current field
count plus one. -/
def addFieldId (t : FieldType) (formFields : List FormField) : String :=
  t.tag ++ "_field_" ++ toString (formFields.length + 1)

/-- Embedding of `saveField` (lines 868-876): the field replaces the
one sharing its id only when a persisted form is loaded and such a
field exists; otherwise it is appended, same-id collisions included. -/
def saveField (existingFormId : Option Nat) (formFields : List FormField)
    (field : FormField) : List FormField :=
  if existingFormId.isSome && formFields.any (fun f => f.id == field.id) then
    formFields.map fun f => if f.id == field.id then field else f
  else
    formFields ++ [field]

/-- Embedding of `deleteField` (lines 878-880). -/
def deleteField (i : String) (formFields : List FormField) : List FormField :=
  formFields.filter fun f => f.id != i

/-- The result of one drop on `FileUploadField`
(DepartmentSignupFormBuilder.tsx, lines 355-388): the file is passed to
`onChange`, or an alert is raised and the file is discarded. -/
inductive DropResult
  | accepted (f : FileV)
  | rejected (msg : String)
deriving DecidableEq

/-- Model of `file.name.split('.').pop()?.toLowerCase()`: the lowercased
text after the last dot (the whole name when there is no dot). -/
def fileExt (name : String) : String :=
  ⟨((splitOnChar '.' name.data).getLastD []).map Char.toLower⟩

/-- Embedding of the `onDrop` validation of `FileUploadField`: the size
check against `maxFileSize || 5` megabytes runs first, then the
extension must be literally contained in `fileTypes` when that list is
present and non-empty. -/
def onDrop (field : FormField) (file : FileV) : DropResult :=
  let maxSizeMB := if natTruthy field.maxFileSize then field.maxFileSize.getD 0 else 5
  let maxSizeBytes := maxSizeMB * 1024 * 1024
  if file.size > maxSizeBytes then
    .rejected ("File size must be less than " ++ toString maxSizeMB ++ "MB")
  else
    match field.fileTypes with
    | some ts =>
        if ts.length > 0 then
          let ext := fileExt file.name
          if ext == "" || !ts.contains ext then
            .rejected ("File type must be one of: " ++ String.intercalate ", " ts)
          else
            .accepted file
        else
          .accepted file
    | none => .accepted file

/-- The dropzone `accept` mapping built two lines below `onDrop` in the
same component (lines 380-385): each `fileTypes` tag contributes a MIME
key and its file extensions; in particular the tag "image" stands for
the category of .jpg, .jpeg, .png and .gif files. -/
def dropzoneAccept (ts : List String) : List (String × List String) :=
  ts.foldl
    (fun acc t =>
      let acc1 := if t == "pdf" then acc ++ [("application/pdf", [".pdf"])] else acc
      let acc2 :=
        if t == "docx" then
          acc1 ++
            [("application/vnd.openxmlformats-officedocument.wordprocessingml.document",
              [".docx"])]
        else acc1
      if t == "image" then
        acc2 ++ [(("image/" ++ "*"), [".jpg", ".jpeg", ".png", ".gif"])]
      else acc2)
    []

/-- The three fixed document slots `handleSubmit` requires
(FormManagementTab.tsx second document, line 544). -/
def requiredDocs : List String :=
  ["aadhaar_card", "police_verification", "offer_letter"]

/-- Model of the `missingDocs` computation of `handleSubmit`: the
required document types with no file in the `documents` record. -/
def missingDocs (documents : List (String × FileV)) : List String :=
  requiredDocs.filter fun d => documents.all fun p => p.1 != d

/-- Embedding of `departmentSpecificData` collection inside
`handleSubmit` (lines 561-567): the non-file fields whose submitted
value is truthy, keyed by field id. -/
def departmentSpecificData (formFields : List FormField)
    (formData : String → Option String) : List (String × String) :=
  (formFields.filter fun f => f.type != .file).filterMap fun f =>
    match formData f.id with
    | some v => if v != "" then some (f.id, v) else none
    | none => none

/-- Embedding of the storage side effects of one `handleSubmit` run
(FormManagementTab.tsx second document, lines 527-595): the returned
list is the sequence of files `uploadDocuments` sends to object
storage.  The only checks preceding the upload loop are the selected
department, the presence of the three fixed required documents, and the
authenticated user; the department form fields are read only to build
`departmentSpecificData` and are never validated. -/
def handleSubmitUploads (departmentId : String)
    (documents : List (String × FileV)) (user : Option String) :
    List (String × FileV) :=
  if departmentId == "" then
    []
  else if !(missingDocs documents).isEmpty then
    []
  else
    match user with
    | none => []
    | some _ => documents

/-
Concrete fixtures used by the theorems below.
-/

/-- Scenario field: a required text field labelled Full Name. -/
def fullNameField : FormField :=
  ⟨"full_name", .text, "Full Name", true, none, none, none, none⟩

/-- Scenario field: an optional file field restricted to pdf, 5 MB. -/
def resumeField : FormField :=
  ⟨"resume", .file, "Resume", false, none, none, some ["pdf"], some 5⟩

/-- Scenario field: a dropdown over North and South. -/
def regionField : FormField :=
  ⟨"region", .dropdown, "Region", true, some ["North", "South"], none, none, none⟩

/-- Scenario input giving the region dropdown the out-of-options value
East. -/
def regionInputEast : String → Option Value :=
  fun i => if i = "region" then some (.str "East") else none

/-- Scenario A input: empty full name, no resume. -/
def scenarioAInput : String → Option Value :=
  fun i => if i = "full_name" then some (.str "") else none

/-- Two well-formed fields sharing the id dup. -/
def dupIdFields : List FormField :=
  [⟨"dup", .text, "First", false, none, none, none, none⟩,
   ⟨"dup", .email, "Second", false, none, none, none, none⟩]

/-- A dropdown field whose options list is empty. -/
def emptyOptionsDropdown : FormField :=
  ⟨"choice", .dropdown, "Choice", true, some [], none, none, none⟩

/-- A file field whose allowed types carry only the category tag
image. -/
def imagePhotoField : FormField :=
  ⟨"photo", .file, "Photo", false, none, none, some ["image"], some 5⟩

/-- The three fixed required documents, all present. -/
def threeDocs : List (String × FileV) :=
  [("aadhaar_card", ⟨"a.pdf", 100⟩),
   ("police_verification", ⟨"p.pdf", 100⟩),
   ("offer_letter", ⟨"o.pdf", 100⟩)]

/-- An optional text field carrying a minimum-length bound of 3. -/
def optionalMinField : FormField :=
  ⟨"nickname", .text, "Nickname", false, none, some ⟨some 3, none⟩, none, none⟩

/-- A text field whose two length bounds are both zero. -/
def zeroBoundsField : FormField :=
  ⟨"note", .text, "Note", false, none, some ⟨some 0, some 0⟩, none, none⟩

/-- A plain text field named by the generated id text_field_2. -/
def textField2 : FormField :=
  ⟨"text_field_2", .text, "Text Field", false, none, none, none, none⟩

/-- A plain text field named by the generated id text_field_1. -/
def textField1 : FormField :=
  ⟨"text_field_1", .text, "Text Field", false, none, none, none, none⟩

/-- The spec-shaped per-field acceptance predicate that
`validateField` turns out to decide: the required check on the trimmed
value, the email and phone pattern checks behind a truthiness guard,
and the two length bounds enforced only when non-zero and only on
truthy values.  Dropdown options and file constraints do not appear. -/
def fieldOk (f : FormField) (v : Option Value) : Prop :=
  (f.required = true → vTruthy v = true ∧ jsTrim (vToStr v) ≠ "") ∧
  (f.type = .email → vTruthy v = true → emailTest (vToStr v) = true) ∧
  (f.type = .phone → vTruthy v = true → phoneTest (vToStr v) = true) ∧
  (∀ val, f.validation = some val →
    (natTruthy val.min = true → vTruthy v = true → vLenLt v (val.min.getD 0) = false) ∧
    (natTruthy val.max = true → vTruthy v = true → vLenGt v (val.max.getD 0) = false))

/-- The complete list of schema-level violations present in one save
attempt, in the order the checks of `saveForm` run. -/
def violationMsgs (d n : String) (fs : List FormField) : List String :=
  (if d == "" then ["Please select a department"] else []) ++
  (if n == "" || jsTrim n == "" then ["Please enter a form name"] else []) ++
  (if (jsTrim n).length < 3 then ["Form name must be at least 3 characters long"] else []) ++
  (if fs.isEmpty then ["Please add at least one field to the form"] else []) ++
  (if fs.any (fun f => f.id == "" || f.label == "") then
    ["All fields must have an ID, label, and type"] else [])

/-
Helper lemmas.
-/

/-- An if-chain over options misses `none` exactly when the guard fails
and the remainder misses it. -/
theorem ite_some_eq_none {α : Type} (c : Prop) [Decidable c] (a : α) (rest : Option α) :
    (if c then some a else rest) = none ↔ ¬c ∧ rest = none := by
  split <;> simp_all

set_option maxHeartbeats 2000000 in
/-- `validateField` accepts exactly the values satisfying `fieldOk`. -/
theorem validateField_eq_none_iff (f : FormField) (v : Option Value) :
    validateField f v = none ↔ fieldOk f v := by
  unfold validateField fieldOk
  cases hval : f.validation with
  | none =>
      simp only [hval, ite_some_eq_none, Bool.and_eq_true, Bool.or_eq_true,
        Bool.not_eq_true', beq_iff_eq, Option.some.injEq, not_and, not_or,
        reduceCtorEq, false_implies, implies_true, and_true, Bool.eq_false_iff, ne_eq]
      tauto
  | some val =>
      simp only [hval, ite_some_eq_none, Bool.and_eq_true, Bool.or_eq_true,
        Bool.not_eq_true', beq_iff_eq, Option.some.injEq, not_and, not_or,
        reduceCtorEq, false_implies, implies_true, and_true, Bool.eq_false_iff, ne_eq,
        forall_eq']
      tauto

/-
Claim theorems.
-/

/-- Claim C1, counterexample: the save operation accepts, and persists,
a schema with two fields sharing one id, and a schema whose dropdown
field has an empty options list; neither of the rejections the claim
demands happens. -/
theorem saveForm_accepts_duplicate_ids :
    saveFormError "d1" "Employee Form" dupIdFields = none ∧
    (saveForm ⟨[], 0⟩ ⟨"d1", "Employee Form", "", dupIdFields, none, false⟩).1.rows ≠
      [] ∧
    ¬ (dupIdFields.map FormField.id).Nodup ∧
    saveFormError "d1" "Employee Form" [emptyOptionsDropdown] = none ∧
    emptyOptionsDropdown.type = FieldType.dropdown ∧
    emptyOptionsDropdown.options = some [] := by
  refine ⟨rfl, by decide, by decide, rfl, rfl, rfl⟩

/-- Claim C1, amended: schema-level validation of the save operation
accepts, and persistence proceeds, exactly when a department is
selected, the trimmed form name has length at least 3, the field list
is non-empty, and every field has a non-empty id and label; pairwise
distinctness of ids and non-emptiness of dropdown options are not
checked. -/
theorem saveForm_accept_characterization (d n desc : String) (fs : List FormField)
    (nf : Bool) :
    (saveFormError d n fs = none ↔
      (d ≠ "" ∧ 3 ≤ (jsTrim n).length ∧ fs ≠ [] ∧
        ∀ f ∈ fs, f.id ≠ "" ∧ f.label ≠ "")) ∧
    ((saveForm ⟨[], 0⟩ ⟨d, n, desc, fs, none, nf⟩).1.rows ≠ [] ↔
      saveFormError d n fs = none) := by
  constructor
  · have hnil : jsTrim "" = "" := rfl
    unfold saveFormError
    split_ifs with h1 h2 h3 h4 h5
    · exact iff_of_false (by simp) (by rintro ⟨hd, -⟩; exact hd (beq_iff_eq.mp h1))
    · have htr : jsTrim n = "" := by
        rcases (Bool.or_eq_true _ _).mp h2 with h | h
        · rw [beq_iff_eq.mp h, hnil]
        · exact beq_iff_eq.mp h
      exact iff_of_false (by simp)
        (by rintro ⟨-, hlen, -⟩; rw [htr] at hlen; simp at hlen)
    · exact iff_of_false (by simp) (by rintro ⟨-, hlen, -⟩; omega)
    · exact iff_of_false (by simp)
        (by rintro ⟨-, -, hne, -⟩; exact hne (List.isEmpty_iff.mp h4))
    · refine iff_of_false (by simp) ?_
      rintro ⟨-, -, -, hall⟩
      obtain ⟨x, hx, hpx⟩ := List.any_eq_true.mp h5
      rcases (Bool.or_eq_true _ _).mp hpx with h | h
      · exact (hall x hx).1 (beq_iff_eq.mp h)
      · exact (hall x hx).2 (beq_iff_eq.mp h)
    · refine iff_of_true rfl ⟨?_, ?_, ?_, ?_⟩
      · intro h; exact h1 (by simp [h])
      · omega
      · intro h; exact h4 (by simp [h])
      · intro f hf
        constructor
        · intro h; exact h5 (List.any_eq_true.mpr ⟨f, hf, by simp [h]⟩)
        · intro h; exact h5 (List.any_eq_true.mpr ⟨f, hf, by simp [h]⟩)
  · cases h : saveFormError d n fs <;>
      simp [saveForm, h, Store.insertForm]

/-- Claim C1, witness: the characterization applied to a concrete
accepted schema. -/
theorem saveForm_accept_characterization_witness :
    saveFormError "d1" "Employee Form" [fullNameField] = none :=
  ((saveForm_accept_characterization "d1" "Employee Form" "" [fullNameField]
      false).1).mpr
    (by refine ⟨by decide, by decide, by decide, ?_⟩
        intro f hf
        rw [List.mem_singleton] at hf
        subst hf
        exact ⟨by decide, by decide⟩)

/-- Claim C2, counterexample: for the dropdown field over North and
South with submitted value East, submission-level validation reports no
error at all, where the claim demands an error on that field. -/
theorem validateForm_ignores_dropdown_options :
    validateField regionField (some (Value.str "East")) = none ∧
    formErrors [regionField] regionInputEast = [] ∧
    validateForm [regionField] regionInputEast = true ∧
    "East" ∉ (["North", "South"] : List String) := by
  refine ⟨rfl, rfl, rfl, by decide⟩

/-- Claim C2, amended: submission-level validation reports no errors
iff every required field has a value non-empty after trimming, every
email and phone field with a truthy value matches its pattern, and
every non-zero min/max length bound is respected by truthy values;
dropdown membership and file constraints are never checked. -/
theorem validateForm_true_iff (fields : List FormField)
    (formData : String → Option Value) :
    validateForm fields formData = true ↔
      ∀ f ∈ fields, fieldOk f (formData f.id) := by
  unfold validateForm
  rw [List.all_eq_true]
  refine forall_congr' fun f => ?_
  rw [Option.isNone_iff_eq_none]
  exact imp_congr Iff.rfl (validateField_eq_none_iff f (formData f.id))

/-- Claim C2, witness: the characterization applied to a concrete
passing submission. -/
theorem validateForm_true_iff_witness :
    validateForm [fullNameField]
      (fun i => if i = "full_name" then some (Value.str "John") else none) = true :=
  (validateForm_true_iff _ _).mpr (by
    intro f hf
    rw [List.mem_singleton] at hf
    subst hf
    refine ⟨fun _ => ⟨by decide, by decide⟩, ?_, ?_, ?_⟩
    · intro h; exact absurd h (by decide)
    · intro h; exact absurd h (by decide)
    · intro val h; exact Option.noConfusion h)

/-- Claim C3, counterexample: with the department selected and the
three fixed documents present, a submission whose required text field
is empty (a submission-level violation) still has every file uploaded:
schema constraints do not precede or prevent the storage side effect. -/
theorem handleSubmit_uploads_despite_invalid_input :
    validateForm [fullNameField] scenarioAInput = false ∧
    handleSubmitUploads "d1" threeDocs (some "u1") = threeDocs ∧
    threeDocs ≠ [] := by
  refine ⟨rfl, rfl, by decide⟩

/-- Claim C3, amended: the only checks preceding the upload loop are
the selected department, the presence of the three fixed required
documents, and the authenticated user: no upload happens iff one of
those fails or there is no file, and field-level schema constraints
play no role. -/
theorem handleSubmit_upload_guard (departmentId : String)
    (documents : List (String × FileV)) (user : Option String) :
    handleSubmitUploads departmentId documents user = [] ↔
      (departmentId = "" ∨ missingDocs documents ≠ [] ∨ user = none ∨
        documents = []) := by
  unfold handleSubmitUploads
  split_ifs with h1 h2
  · simp [beq_iff_eq.mp h1]
  · simp only [Bool.not_eq_true', Bool.not_eq_false] at h2
    simp [List.isEmpty_iff] at h2
    simp [h2]
  · have hd : ¬ departmentId = "" := fun h => h1 (by simp [h])
    have hm : missingDocs documents = [] := by
      rcases Bool.eq_false_or_eq_true ((missingDocs documents).isEmpty) with h | h
      · exact List.isEmpty_iff.mp h
      · exact absurd (by rw [h]; decide) h2
    cases user with
    | none => simp [hd, hm]
    | some u => simp [hd, hm]

/-- Claim C3, witness: with no department selected, nothing is
uploaded. -/
theorem handleSubmit_upload_guard_witness :
    handleSubmitUploads "" threeDocs (some "u1") = [] :=
  (handleSubmit_upload_guard "" threeDocs (some "u1")).mpr (Or.inl rfl)

/-- Claim C4, counterexample: a save attempt with both a too-short name
and an empty field list reports only the name violation; the
empty-field-list violation holds but its message is absent, so the
result does not enumerate all violations. -/
theorem saveForm_reports_single_violation :
    saveFormToasts "d1" "ab" ([] : List FormField) =
      ["Form name must be at least 3 characters long"] ∧
    ([] : List FormField).isEmpty = true ∧
    "Please add at least one field to the form" ∉
      saveFormToasts "d1" "ab" ([] : List FormField) := by
  refine ⟨rfl, rfl, by decide⟩

/-- Claim C4, amended: schema-level validation short-circuits: it
reports exactly the first violation in the fixed check order
(department, empty name, short name, empty field list, malformed
fields) and at most one message per attempt. -/
theorem saveForm_first_violation (d n : String) (fs : List FormField) :
    saveFormError d n fs = (violationMsgs d n fs).head? ∧
    (saveFormToasts d n fs).length ≤ 1 := by
  constructor
  · unfold saveFormError violationMsgs
    split_ifs <;> simp_all
  · unfold saveFormToasts
    cases saveFormError d n fs <;> simp

/-- Claim C4, witness: the first-violation characterization applied to
a concrete doubly-invalid schema. -/
theorem saveForm_first_violation_witness :
    saveFormError "d1" "ab" ([] : List FormField) =
      (violationMsgs "d1" "ab" ([] : List FormField)).head? :=
  (saveForm_first_violation "d1" "ab" []).1

/-- Claim C5, code-bug exhibit: the drop handler rejects a small .jpg
file when `fileTypes` carries the category tag image, although the
dropzone accept configuration two lines below expands that same tag to
the .jpg/.jpeg/.png/.gif extensions; the size half of the claim does
hold: a 6 MB file against the 5 MB limit is rejected with exactly
"File size must be less than 5MB" and never handed to `onChange`. -/
theorem fileUpload_image_tag_rejects_jpg :
    onDrop imagePhotoField ⟨"photo.jpg", 1048576⟩ =
      DropResult.rejected "File type must be one of: image" ∧
    dropzoneAccept ["image"] =
      [("image/" ++ "*", [".jpg", ".jpeg", ".png", ".gif"])] ∧
    fileExt "photo.jpg" = "jpg" ∧
    onDrop resumeField ⟨"resume.pdf", 6291456⟩ =
      DropResult.rejected "File size must be less than 5MB" := by
  refine ⟨by decide, by decide, by decide, by decide⟩

/-- Claim C6: a required field with an absent or whitespace-only value
yields exactly the message label-is-required, an optional file field
with no value yields no error, and Scenario A produces exactly the one
error on full_name. -/
theorem required_field_error_message (f g : FormField) (s : String)
    (hreq : f.required = true) (hw : jsTrim s = "")
    (hg : g.required = false) (hgt : g.type = FieldType.file) :
    validateField f none = some (f.label ++ " is required") ∧
    validateField f (some (Value.str s)) = some (f.label ++ " is required") ∧
    validateField g none = none ∧
    formErrors [fullNameField, resumeField] scenarioAInput =
      [("full_name", "Full Name is required")] := by
  refine ⟨?_, ?_, ?_, rfl⟩
  · simp [validateField, vTruthy, hreq]
  · simp [validateField, vTruthy, vToStr, hreq, hw]
  · cases hval : g.validation <;> simp [validateField, vTruthy, hg, hval, hgt]

/-- Claim C6, witness: the required-field message on a concrete
whitespace-only value. -/
theorem required_field_error_message_witness :
    validateField fullNameField (some (Value.str " ")) =
      some (fullNameField.label ++ " is required") :=
  (required_field_error_message fullNameField resumeField " " rfl (by decide)
    rfl rfl).2.1

/-- Claim C7: saving a valid schema into an empty store persists
exactly one row carrying its fields, reloading returns those fields in
content and order with the stored id, and a second save with the same
department and name updates that row in place, preserving its id, so
one stored schema exists rather than two. -/
theorem save_then_load_roundtrip (d n desc : String) (fs : List FormField)
    (nf : Bool) (h : saveFormError d n fs = none) :
    (saveForm ⟨[], 0⟩ ⟨d, n, desc, fs, none, nf⟩).1.rows = [⟨0, d, n, desc, fs⟩] ∧
    (saveForm ⟨[], 0⟩ ⟨d, n, desc, fs, none, nf⟩).2 =
      ⟨d, n, desc, fs, some 0, false⟩ ∧
    (saveForm (saveForm ⟨[], 0⟩ ⟨d, n, desc, fs, none, nf⟩).1
        (saveForm ⟨[], 0⟩ ⟨d, n, desc, fs, none, nf⟩).2).1.rows =
      [⟨0, d, n, desc, fs⟩] ∧
    (saveForm (saveForm ⟨[], 0⟩ ⟨d, n, desc, fs, none, nf⟩).1
        (saveForm ⟨[], 0⟩ ⟨d, n, desc, fs, none, nf⟩).2).2 =
      ⟨d, n, desc, fs, some 0, false⟩ := by
  have h1 : saveForm ⟨[], 0⟩ ⟨d, n, desc, fs, none, nf⟩ =
      (⟨[⟨0, d, n, desc, fs⟩], 1⟩, ⟨d, n, desc, fs, some 0, false⟩) := by
    simp [saveForm, h, Store.insertForm, Store.selectByDept, applyLoad]
  have h2 : saveForm (⟨[⟨0, d, n, desc, fs⟩], 1⟩ : Store)
      ⟨d, n, desc, fs, some 0, false⟩ =
      (⟨[⟨0, d, n, desc, fs⟩], 1⟩, ⟨d, n, desc, fs, some 0, false⟩) := by
    simp [saveForm, h, Store.updateById, Store.selectByDept, applyLoad]
  rw [h1, h2]
  exact ⟨rfl, rfl, rfl, rfl⟩

/-- Claim C7, witness: the round trip applied to a concrete schema. -/
theorem save_then_load_roundtrip_witness :
    (saveForm ⟨[], 0⟩ ⟨"d1", "Employee Form", "", [fullNameField], none, false⟩).2 =
      ⟨"d1", "Employee Form", "", [fullNameField], some 0, false⟩ :=
  (save_then_load_roundtrip "d1" "Employee Form" "" [fullNameField] false
    (by decide)).2.1

/-- Claim C8: loading a department form maps the no-matching-row result
to the distinct not-found outcome, exactly the error results to the
table-missing or failure outcomes, and never conflates the two: absence
is not a failure and a failure is not absence. -/
theorem load_notfound_distinct_from_failure
    (res : Except DbErr (Option StoredForm)) :
    (loadExistingFormOutcome res = LoadOutcome.notFound ↔ res = Except.ok none) ∧
    ((∃ e, res = Except.error e) ↔
      (loadExistingFormOutcome res = LoadOutcome.tableMissing ∨
        ∃ m, loadExistingFormOutcome res = LoadOutcome.failure m)) := by
  rcases res with e | o
  · constructor
    · simp only [loadExistingFormOutcome]
      split_ifs <;> simp
    · simp only [loadExistingFormOutcome]
      split_ifs <;> simp
  · cases o <;> simp [loadExistingFormOutcome]

/-- Claim C8, witness: the empty query result yields the not-found
outcome. -/
theorem load_notfound_distinct_from_failure_witness :
    loadExistingFormOutcome (Except.ok none) = LoadOutcome.notFound :=
  (load_notfound_distinct_from_failure (Except.ok none)).1.mpr rfl

/-- Claim C9: a non-required field with an empty submitted value passes
validation regardless of any minimum bound, and a min or max bound
equal to zero is never enforced: the field validates exactly as if that
bound were absent. -/
theorem length_bounds_skip_empty_and_zero (f g : FormField) (v : Option Value)
    (hf : f.required = false) :
    validateField f (some (Value.str "")) = none ∧
    (∀ mx, g.validation = some ⟨some 0, mx⟩ →
      validateField g v = validateField { g with validation := some ⟨none, mx⟩ } v) ∧
    (∀ mn, g.validation = some ⟨mn, some 0⟩ →
      validateField g v = validateField { g with validation := some ⟨mn, none⟩ } v) := by
  refine ⟨?_, ?_, ?_⟩
  · cases hval : f.validation <;> simp [validateField, vTruthy, hf, hval]
  · intro mx h; simp [validateField, h, natTruthy]
  · intro mn h; simp [validateField, h, natTruthy]

/-- Claim C9, witness: a concrete optional field with minimum length 3
accepts the empty value, and zero bounds change nothing. -/
theorem length_bounds_skip_empty_and_zero_witness :
    validateField optionalMinField (some (Value.str "")) = none ∧
    validateField zeroBoundsField (some (Value.str "this is far too long"))
      = validateField { zeroBoundsField with validation := some ⟨none, some 0⟩ }
          (some (Value.str "this is far too long")) :=
  ⟨(length_bounds_skip_empty_and_zero optionalMinField zeroBoundsField
      (some (Value.str "this is far too long")) rfl).1,
   (length_bounds_skip_empty_and_zero optionalMinField zeroBoundsField
      (some (Value.str "this is far too long")) rfl).2.1 (some 0) rfl⟩

/-- Claim C10: with no persisted form loaded, saving a field always
appends, so a field whose id already occurs in the list yields two
fields with that id; and the generated id type_field_(n+1) collides
with an existing field after a deletion, as the concrete
text_field_1/text_field_2 sequence shows. -/
theorem saveField_appends_on_fresh_form (fs : List FormField) (field : FormField)
    (h : fs.any (fun f => f.id == field.id) = true) :
    saveField none fs field = fs ++ [field] ∧
    2 ≤ ((saveField none fs field).filter (fun f => f.id == field.id)).length ∧
    deleteField "text_field_1" [textField1, textField2] = [textField2] ∧
    addFieldId FieldType.text [textField2] = "text_field_2" ∧
    textField2.id = "text_field_2" := by
  refine ⟨rfl, ?_, by decide, rfl, rfl⟩
  rw [show saveField none fs field = fs ++ [field] from rfl]
  rw [List.filter_append]
  rw [List.length_append]
  have h1 : 1 ≤ (fs.filter (fun f => f.id == field.id)).length := by
    rw [List.any_eq_true] at h
    obtain ⟨x, hx, hpx⟩ := h
    have hmem : x ∈ fs.filter (fun f => f.id == field.id) :=
      List.mem_filter.mpr ⟨hx, hpx⟩
    exact List.length_pos_of_mem hmem
  have h2 : ([field].filter (fun f => f.id == field.id)).length = 1 := by simp
  omega

/-- Claim C10, witness: re-saving the full-name field into a never
persisted form duplicates it. -/
theorem saveField_appends_on_fresh_form_witness :
    saveField none [fullNameField] fullNameField = [fullNameField, fullNameField] ∧
    2 ≤ ((saveField none [fullNameField] fullNameField).filter
      (fun f => f.id == fullNameField.id)).length :=
  ⟨(saveField_appends_on_fresh_form [fullNameField] fullNameField (by decide)).1,
   (saveField_appends_on_fresh_form [fullNameField] fullNameField (by decide)).2.1⟩

end Onboard


